import Mathlib

set_option autoImplicit false

/-!
Verification of the darker repository's core behaviour.

The development shallowly embeds `src/darker/__main__.py` and
`src/darker/git.py`.  External collaborators that live in modules not part
of the embedded sources (`darker.diff`, `darker.chooser`,
`darker.black_diff`, `darker.import_sorting`, `darker.verification`,
`darker.utils`) are opaque function parameters gathered in an `Env`
structure: every theorem about the orchestrator's control flow holds for
arbitrary collaborator behaviour.
-/

/-! ## Python string and path primitives -/

/-- Line-break characters recognised by Python `str.splitlines`. -/
def isLineBreak (c : Char) : Bool :=
  c = '\n' || c = '\r' || c = '\x0b' || c = '\x0c' ||
  c = '\x1c' || c = '\x1d' || c = '\x1e' || c = '\x85' ||
  c = '\u2028' || c = '\u2029'

/-- Worker for `splitlines`: accumulates the current line in reverse. -/
def splitlinesAux : List Char → List Char → List String
  | [], [] => []
  | [], acc => [String.mk acc.reverse]
  | '\r' :: '\n' :: rest, acc => String.mk acc.reverse :: splitlinesAux rest []
  | c :: rest, acc =>
      if isLineBreak c then String.mk acc.reverse :: splitlinesAux rest []
      else splitlinesAux rest (c :: acc)

/-- Python `str.splitlines()` (without `keepends`): splits at line
boundaries and drops a trailing empty line. -/
def splitlines (s : String) : List String :=
  splitlinesAux s.toList []

/-- A `pathlib.Path` modelled as its list of components; `/` on paths is
list append. -/
abbrev PyPath := List String

/-- Python `pathlib.PurePath.name`: the final path component
(empty for an empty path). -/
def pathlibName (p : PyPath) : String := p.getLastD ""

/-- Python `str.rfind` restricted to a single character, over the
character list: index of the last occurrence, `none` when absent
(CPython returns `-1` there). -/
def rfindChar : List Char → Char → Option Nat
  | [], _ => none
  | x :: xs, c =>
      match rfindChar xs c with
      | some i => some (i + 1)
      | none => if x = c then some 0 else none

/-- Python `pathlib.PurePath.suffix`: the extension of the final
component.  CPython: `i = name.rfind('.'); return name[i:] if
0 < i < len(name) - 1 else ''`. -/
def pathSuffix (p : PyPath) : String :=
  let name := pathlibName p
  match rfindChar name.toList '.' with
  | some i =>
      if 0 < i && i < name.length - 1 then String.mk (name.toList.drop i) else ""
  | none => ""

/-! ## `darker/git.py` -/

/-- The observable behaviour of the `git` executable for one run:
`showFile rev path` is the stdout of `git show rev:./path` when that
exits with status 0, and `none` when it fails (path absent at the
revision); `diffOutput` is the list of paths printed by
`git diff --name-only --relative`; `fileExists p` is `Path.exists()`
on the working tree. -/
structure GitWorld where
  showFile : String → PyPath → Option String
  diffOutput : List PyPath
  fileExists : PyPath → Bool

/-- `subprocess.check_output` raises `CalledProcessError` when the
command exits with a nonzero status. -/
inductive SubprocessError
  | calledProcessError
deriving DecidableEq, Repr

/-- `check_output(["git", "show", f"{revision}:./{path}"], ...)`:
stdout on success, `CalledProcessError` on nonzero exit. -/
def checkOutputGitShow (world : GitWorld) (revision : String) (path : PyPath) :
    Except SubprocessError String :=
  match world.showFile revision path with
  | some out => Except.ok out
  | none => Except.error SubprocessError.calledProcessError

/-- `git_get_content(path, cwd, revision)`: runs `git show` and splits the
output into lines; any `CalledProcessError` from `check_output`
propagates. -/
def git_get_content (world : GitWorld) (path : PyPath) (_cwd : PyPath)
    (revision : String) : Except SubprocessError (List String) :=
  (checkOutputGitShow world revision path).map splitlines

/-- `git_get_unmodified_content(path, cwd)`: content at `HEAD`. -/
def git_get_unmodified_content (world : GitWorld) (path : PyPath) (cwd : PyPath) :
    Except SubprocessError (List String) :=
  git_get_content world path cwd "HEAD"

/-- `git_get_index_content(path, cwd)`: content in the index
(revision string `""`). -/
def git_get_index_content (world : GitWorld) (path : PyPath) (cwd : PyPath) :
    Except SubprocessError (List String) :=
  git_get_content world path cwd ""

/-- `should_reformat_file(path)`:
`path.exists() and path.suffix == ".py"`. -/
def should_reformat_file (world : GitWorld) (path : PyPath) : Bool :=
  world.fileExists path && pathSuffix path = ".py"

/-- `git_diff_name_only(paths, cwd)`: the paths printed by
`git diff --name-only`, kept when `should_reformat_file(cwd / path)`
holds.  The Python function builds a `set`; we model it as a
deduplicated list, with set membership as the semantics. -/
def git_diff_name_only (world : GitWorld) (cwd : PyPath) : List PyPath :=
  (world.diffOutput.filter (fun path => should_reformat_file world (cwd ++ path))).dedup

/-- A repository in which `my.txt` exists at `HEAD` with content
`"modified content"` but exists at no other revision and not in the
index: `git show HEAD~2:./my.txt` and `git show :./my.txt` both exit
nonzero. -/
def headOnlyRepo : GitWorld where
  showFile := fun rev _path => if rev = "HEAD" then some "modified content" else none
  diffOutput := []
  fileExists := fun _ => false

/-! ## File-system and index state for the write methods -/

/-- Update an association list at a key, replacing any previous binding. -/
def setKey (m : List (PyPath × String)) (k : PyPath) (v : String) :
    List (PyPath × String) :=
  (k, v) :: m.filter (fun kv => kv.1 ≠ k)

/-- The mutable Git state visible to the write methods: the working-tree
files and the staging-index entries, each a map from absolute path to
content. -/
structure GitState where
  workTree : List (PyPath × String)
  index : List (PyPath × String)
deriving DecidableEq, Repr

/-- `BaseGitFileAccess.get_absolute_path(relative_path)`:
`self.git_root / relative_path`. -/
def get_absolute_path (gitRoot relativePath : PyPath) : PyPath :=
  gitRoot ++ relativePath

/-- `WorkTreeFileAccess.write(relative_path, content)`:
`self.get_absolute_path(relative_path).write_text(content)`. -/
def workTreeFileAccessWrite (gitRoot : PyPath) (st : GitState)
    (relativePath : PyPath) (content : String) : GitState :=
  { st with workTree := setKey st.workTree (get_absolute_path gitRoot relativePath) content }

/-- `IndexFileAccess.write(relative_path, content)`: the method body is
the same call to `write_text` on the working-tree file; it does not
touch the staging index. -/
def indexFileAccessWrite (gitRoot : PyPath) (st : GitState)
    (relativePath : PyPath) (content : String) : GitState :=
  { st with workTree := setKey st.workTree (get_absolute_path gitRoot relativePath) content }

/-! ## `darker/__main__.py`: data types -/

/-- Tags of `difflib.SequenceMatcher` opcodes. -/
inductive OpTag
  | equal
  | insert
  | delete
  | replace
deriving DecidableEq, Repr

/-- Modelled from the spec: an edit opcode, a tagged record
`{tag, a_start, a_end, b_start, b_end}` (the concrete producer,
`darker.diff.diff_and_get_opcodes`, is not among the embedded sources;
the orchestrator treats opcodes opaquely). -/
structure Opcode where
  tag : OpTag
  aStart : Nat
  aEnd : Nat
  bStart : Nat
  bEnd : Nat
deriving DecidableEq, Repr

/-- Modelled from the spec: a chunk
`{start_linenum, original_lines, reformatted_lines}` (the concrete
producer, `darker.diff.opcodes_to_chunks`, is not among the embedded
sources; the orchestrator treats chunks opaquely). -/
structure Chunk where
  startLinenum : Nat
  originalLines : List String
  reformattedLines : List String
deriving DecidableEq, Repr

/-- `BlackArgs`: the optional Black options dictionary. -/
structure BlackArgs where
  config : Option String := none
  lineLength : Option Nat := none
  skipStringNormalization : Option Bool := none
deriving DecidableEq, Repr

/-- Exceptions that can cross `format_edited_parts`' frames:
`NotEquivalentError` from `darker.verification`, an error raised by the
external formatter inside `run_black`, or any other exception. -/
inductive DarkerError
  | notEquivalent
  | formatterError (msg : String)
  | otherError (msg : String)
deriving DecidableEq, Repr

/-- Observable side effects of one `format_edited_parts` run, in order:
an invocation of the external formatter (`run_black`), a
`git_file_access.write`, or printed diff output. -/
inductive Effect
  | blackCall (src : PyPath) (content : String)
  | write (relativePath : PyPath) (content : String)
  | printOut (difflines : List String)
deriving DecidableEq, Repr

/-- True exactly on formatter-invocation effects. -/
def Effect.isBlackCall : Effect → Bool
  | .blackCall _ _ => true
  | _ => false

/-- Number of formatter invocations recorded in a trace; one per
attempt of the retry loop. -/
def countBlackCalls (effs : List Effect) : Nat :=
  (effs.filter Effect.isBlackCall).length

/-- The collaborator functions imported by `darker/__main__.py` from
modules outside the embedded sources.  Each field is an arbitrary pure
function with the Python callee's signature; `run_black` may fail
(the formatter can raise), `verify_ast_unchanged` either returns or
raises. -/
structure Env where
  diff_and_get_opcodes : List String → List String → List Opcode
  opcodes_to_edit_linenums : List Opcode → Nat → List Nat
  run_black : PyPath → String → BlackArgs → Except DarkerError (List String)
  opcodes_to_chunks : List Opcode → List String → List String → List Chunk
  choose_lines : List Chunk → List Nat → List String
  joinlines : List String → String
  verify_ast_unchanged : String → String → List Chunk → List Nat → Except DarkerError Unit
  apply_isort : String → PyPath → Option String → Option Nat → String
  unified_diff : List String → List String → String → String → List String

/-- One file of the `edited_srcs.items()` iteration: its repository
relative path, its lines at `HEAD` (`head_srcs[src_relative]`) and its
current content (`git_modified_srcs[src_relative]`). -/
structure FileInput where
  srcRelative : PyPath
  headLines : List String
  gitModified : String
deriving Repr

/-- `Path.as_posix()` of a modelled path. -/
def posixOf (p : PyPath) : String := String.intercalate "/" p

/-! ## `format_edited_parts`: one attempt of the retry loop -/

/-- The edited source text for one file: `apply_isort(...)` when isort
is enabled (step 1), the unchanged `git_modified_srcs` content
otherwise. -/
def editedSrcOf (env : Env) (enableIsort : Bool) (blackArgs : BlackArgs)
    (f : FileInput) : String :=
  if enableIsort then
    env.apply_isort f.gitModified f.srcRelative blackArgs.config blackArgs.lineLength
  else f.gitModified

/-- Loop-body value `edited = edited_content.splitlines()`, recomputed
on every attempt (the context parameter is in scope but unused). -/
def edited_at (env : Env) (enableIsort : Bool) (blackArgs : BlackArgs)
    (f : FileInput) (_contextLines : Nat) : List String :=
  splitlines (editedSrcOf env enableIsort blackArgs f)

/-- Loop-body value (step 2):
`edited_opcodes = diff_and_get_opcodes(head_lines, edited)`. -/
def edited_opcodes_at (env : Env) (enableIsort : Bool) (blackArgs : BlackArgs)
    (f : FileInput) (contextLines : Nat) : List Opcode :=
  env.diff_and_get_opcodes f.headLines (edited_at env enableIsort blackArgs f contextLines)

/-- Loop-body value (step 3):
`edited_linenums = list(opcodes_to_edit_linenums(edited_opcodes, context_lines))`. -/
def edited_linenums_at (env : Env) (enableIsort : Bool) (blackArgs : BlackArgs)
    (f : FileInput) (contextLines : Nat) : List Nat :=
  env.opcodes_to_edit_linenums
    (edited_opcodes_at env enableIsort blackArgs f contextLines) contextLines

/-- Loop-body value (step 4):
`formatted = run_black(src, edited_content, black_args)`; `src` is
`git_file_access.get_absolute_path(src_relative)`. -/
def formatted_at (env : Env) (enableIsort : Bool) (blackArgs : BlackArgs)
    (gitRoot : PyPath) (f : FileInput) (_contextLines : Nat) :
    Except DarkerError (List String) :=
  env.run_black (get_absolute_path gitRoot f.srcRelative)
    (editedSrcOf env enableIsort blackArgs f) blackArgs

/-- Loop-body value (step 5):
`opcodes = diff_and_get_opcodes(edited, formatted)` (defined when
`run_black` succeeded). -/
def opcodes_at (env : Env) (enableIsort : Bool) (blackArgs : BlackArgs)
    (gitRoot : PyPath) (f : FileInput) (contextLines : Nat) :
    Except DarkerError (List Opcode) :=
  (formatted_at env enableIsort blackArgs gitRoot f contextLines).map
    (fun formatted =>
      env.diff_and_get_opcodes (edited_at env enableIsort blackArgs f contextLines) formatted)

/-- Loop-body value (step 6):
`black_chunks = list(opcodes_to_chunks(opcodes, edited, formatted))`. -/
def black_chunks_at (env : Env) (enableIsort : Bool) (blackArgs : BlackArgs)
    (gitRoot : PyPath) (f : FileInput) (contextLines : Nat) :
    Except DarkerError (List Chunk) :=
  (formatted_at env enableIsort blackArgs gitRoot f contextLines).map
    (fun formatted =>
      env.opcodes_to_chunks
        (env.diff_and_get_opcodes (edited_at env enableIsort blackArgs f contextLines) formatted)
        (edited_at env enableIsort blackArgs f contextLines) formatted)

/-- The early-exit condition of lines 157-163:
`enable_isort and not edited_linenums and edited_content == git_modified_srcs[src_relative]`. -/
def earlyExitCond (env : Env) (enableIsort : Bool) (blackArgs : BlackArgs)
    (f : FileInput) (contextLines : Nat) : Bool :=
  enableIsort
    && decide (edited_linenums_at env enableIsort blackArgs f contextLines = [])
    && decide (editedSrcOf env enableIsort blackArgs f = f.gitModified)

/-- Outcome of one attempt, before the loop reacts to it: the early
exit (`break` with nothing formatted), a verified result carrying
`result_str` and `chosen_lines`, or a caught `NotEquivalentError`. -/
inductive AttemptResult
  | skipped
  | verified (resultStr : String) (chosenLines : List String)
  | notEquiv
deriving DecidableEq, Repr

/-- One iteration of the `for context_lines in range(...)` body, up to
but not including the loop's reaction (`break` / `continue` /
re-raise): steps 2-9 of `format_edited_parts`.  Returns the effects of
the iteration and either an uncaught exception or an
`AttemptResult`.  Only `NotEquivalentError` from
`verify_ast_unchanged` is caught (the `except NotEquivalentError`
clause); every other exception, including a `run_black` failure, is
returned as an error. -/
def attemptFile (env : Env) (enableIsort : Bool) (blackArgs : BlackArgs)
    (gitRoot : PyPath) (f : FileInput) (contextLines : Nat) :
    List Effect × Except DarkerError AttemptResult :=
  let src := get_absolute_path gitRoot f.srcRelative
  let editedContent := editedSrcOf env enableIsort blackArgs f
  let edited := edited_at env enableIsort blackArgs f contextLines
  let edited_linenums := edited_linenums_at env enableIsort blackArgs f contextLines
  if earlyExitCond env enableIsort blackArgs f contextLines then
    ([], Except.ok AttemptResult.skipped)
  else
    match formatted_at env enableIsort blackArgs gitRoot f contextLines with
    | Except.error e => ([Effect.blackCall src editedContent], Except.error e)
    | Except.ok formatted =>
        let opcodes := env.diff_and_get_opcodes edited formatted
        let black_chunks := env.opcodes_to_chunks opcodes edited formatted
        let chosen_lines := env.choose_lines black_chunks edited_linenums
        let result_str := env.joinlines chosen_lines
        match env.verify_ast_unchanged editedContent result_str black_chunks edited_linenums with
        | Except.ok _ =>
            ([Effect.blackCall src editedContent],
             Except.ok (AttemptResult.verified result_str chosen_lines))
        | Except.error DarkerError.notEquivalent =>
            ([Effect.blackCall src editedContent], Except.ok AttemptResult.notEquiv)
        | Except.error e => ([Effect.blackCall src editedContent], Except.error e)

/-! ## `format_edited_parts`: the retry loop and the file loop -/

/-- `max_context_lines = len(edited_content)` (line 144).  Note
`edited_content` is a Python `str`, so this is the number of characters
of the edited text, not its number of lines. -/
def max_context_lines (env : Env) (enableIsort : Bool) (blackArgs : BlackArgs)
    (f : FileInput) : Nat :=
  (editedSrcOf env enableIsort blackArgs f).length

/-- The retry loop `for context_lines in range(max_context_lines + 1)`
from iteration `contextLines` on, with `gas` iterations remaining.
On a verified result: print the diff (lines 210-223) or write the file
(line 226), then `break`.  On the early exit: `break`.  On a caught
`NotEquivalentError`: re-raise when `context_lines == max_context_lines`
(line 198-199), otherwise `continue` with the next context value.  An
uncaught exception propagates. -/
def runFrom (env : Env) (enableIsort : Bool) (printDiff : Bool)
    (blackArgs : BlackArgs) (gitRoot : PyPath) (f : FileInput) :
    Nat → Nat → List Effect × Except DarkerError Unit
  | 0, _ => ([], Except.ok ())
  | gas + 1, contextLines =>
      let effs := (attemptFile env enableIsort blackArgs gitRoot f contextLines).1
      match (attemptFile env enableIsort blackArgs gitRoot f contextLines).2 with
      | Except.error e => (effs, Except.error e)
      | Except.ok AttemptResult.skipped => (effs, Except.ok ())
      | Except.ok (AttemptResult.verified result_str chosen_lines) =>
          if printDiff then
            let difflines :=
              env.unified_diff (splitlines f.gitModified) chosen_lines
                (posixOf (get_absolute_path gitRoot f.srcRelative))
                (posixOf (get_absolute_path gitRoot f.srcRelative))
            (effs ++ (if difflines.length > 2 then [Effect.printOut difflines] else []),
             Except.ok ())
          else
            (effs ++ [Effect.write f.srcRelative result_str], Except.ok ())
      | Except.ok AttemptResult.notEquiv =>
          if contextLines = max_context_lines env enableIsort blackArgs f then
            (effs, Except.error DarkerError.notEquivalent)
          else
            let tailRun := runFrom env enableIsort printDiff blackArgs gitRoot f gas (contextLines + 1)
            (effs ++ tailRun.1, tailRun.2)

/-- Processing of one file of `edited_srcs.items()`: the whole
`for context_lines in range(max_context_lines + 1)` loop, entered with
`context_lines = 0`. -/
def processFile (env : Env) (enableIsort : Bool) (printDiff : Bool)
    (blackArgs : BlackArgs) (gitRoot : PyPath) (f : FileInput) :
    List Effect × Except DarkerError Unit :=
  runFrom env enableIsort printDiff blackArgs gitRoot f
    (max_context_lines env enableIsort blackArgs f + 1) 0

/-- The outer `for src_relative, edited_content in edited_srcs.items()`
loop: files are processed in order; an uncaught exception from one file
aborts the whole call, leaving later files unprocessed. -/
def processAll (env : Env) (enableIsort : Bool) (printDiff : Bool)
    (blackArgs : BlackArgs) (gitRoot : PyPath) :
    List FileInput → List Effect × Except DarkerError Unit
  | [] => ([], Except.ok ())
  | f :: rest =>
      let effs := (processFile env enableIsort printDiff blackArgs gitRoot f).1
      match (processFile env enableIsort printDiff blackArgs gitRoot f).2 with
      | Except.error e => (effs, Except.error e)
      | Except.ok _ =>
          let tailRun := processAll env enableIsort printDiff blackArgs gitRoot rest
          (effs ++ tailRun.1, tailRun.2)

/-- `format_edited_parts(enable_isort, black_args, print_diff,
git_file_access)`: the collaborators, repository root and per-file
contents stand in for `git_file_access`. -/
def format_edited_parts (env : Env) (enableIsort : Bool)
    (blackArgs : BlackArgs) (printDiff : Bool) (gitRoot : PyPath)
    (files : List FileInput) : List Effect × Except DarkerError Unit :=
  processAll env enableIsort printDiff blackArgs gitRoot files

/-! ## Concrete instantiations used to exercise the embedding -/

/-- Look up a key in an association list. -/
def getKey (m : List (PyPath × String)) (k : PyPath) : Option String :=
  (m.find? (fun kv => kv.1 = k)).map Prod.snd

/-- A collaborator instantiation whose verifier rejects every candidate
with `NotEquivalentError`, exercising the retry loop to exhaustion. -/
def alwaysFailEnv : Env where
  diff_and_get_opcodes := fun _ _ => []
  opcodes_to_edit_linenums := fun _ _ => [1]
  run_black := fun _ _ _ => Except.ok ["pass"]
  opcodes_to_chunks := fun _ _ _ => []
  choose_lines := fun _ _ => []
  joinlines := fun ls => String.intercalate "\n" ls
  verify_ast_unchanged := fun _ _ _ _ => Except.error DarkerError.notEquivalent
  apply_isort := fun text _ _ _ => text
  unified_diff := fun _ _ _ _ => []

/-- A collaborator instantiation whose formatter rejects its input, as
Black does on a pre-existing syntax error. -/
def blackFailEnv : Env where
  diff_and_get_opcodes := fun _ _ => []
  opcodes_to_edit_linenums := fun _ _ => [1]
  run_black := fun _ _ _ => Except.error (DarkerError.formatterError "syntax error")
  opcodes_to_chunks := fun _ _ _ => []
  choose_lines := fun _ _ => []
  joinlines := fun ls => String.intercalate "\n" ls
  verify_ast_unchanged := fun _ _ _ _ => Except.ok ()
  apply_isort := fun text _ _ _ => text
  unified_diff := fun _ _ _ _ => []

/-- A collaborator instantiation in which isort leaves the text alone
and the diff marks no line as edited. -/
def noopIsortEnv : Env where
  diff_and_get_opcodes := fun _ _ => []
  opcodes_to_edit_linenums := fun _ _ => []
  run_black := fun _ _ _ => Except.ok ["pass"]
  opcodes_to_chunks := fun _ _ _ => []
  choose_lines := fun _ _ => []
  joinlines := fun ls => String.intercalate "\n" ls
  verify_ast_unchanged := fun _ _ _ _ => Except.ok ()
  apply_isort := fun text _ _ _ => text
  unified_diff := fun _ _ _ _ => []

/-- A git world reporting three modified paths: an existing `.py`
file, a `.py` file deleted from the working tree, and an existing
`.js` file. -/
def filterWorld : GitWorld where
  showFile := fun _ _ => none
  diffOutput := [["c", "d.py"], ["gone.py"], ["e.js"]]
  fileExists := fun p => p = ["root", "c", "d.py"] || p = ["root", "e.js"]

/-- A two-line (but four-character) edited file. -/
def twoLineFile : FileInput where
  srcRelative := ["a.py"]
  headLines := []
  gitModified := "a\nb\n"

/-! ## Helper lemmas about attempt effects -/

/-- One attempt's trace is either empty (the early exit) or exactly one
formatter invocation on the file's absolute path and edited text. -/
lemma attemptFile_effects (env : Env) (eI : Bool) (bArgs : BlackArgs)
    (gR : PyPath) (f : FileInput) (ctx : Nat) :
    (attemptFile env eI bArgs gR f ctx).1 = [] ∨
    (attemptFile env eI bArgs gR f ctx).1
      = [Effect.blackCall (get_absolute_path gR f.srcRelative) (editedSrcOf env eI bArgs f)] := by
  unfold attemptFile
  dsimp only
  split
  · exact Or.inl rfl
  · split
    · exact Or.inr rfl
    · split
      · exact Or.inr rfl
      · exact Or.inr rfl
      · exact Or.inr rfl

/-- `countBlackCalls` is additive over trace concatenation. -/
lemma countBlackCalls_append (l₁ l₂ : List Effect) :
    countBlackCalls (l₁ ++ l₂) = countBlackCalls l₁ + countBlackCalls l₂ := by
  simp [countBlackCalls, List.filter_append]

/-- Each attempt invokes the formatter at most once. -/
lemma countBlackCalls_attempt_le (env : Env) (eI : Bool) (bArgs : BlackArgs)
    (gR : PyPath) (f : FileInput) (ctx : Nat) :
    countBlackCalls (attemptFile env eI bArgs gR f ctx).1 ≤ 1 := by
  rcases attemptFile_effects env eI bArgs gR f ctx with h | h <;>
    simp [h, countBlackCalls, Effect.isBlackCall]

/-- No write effect is produced inside an attempt; writes happen only in
the loop's acceptance branch. -/
lemma write_not_mem_attemptFile (env : Env) (eI : Bool) (bArgs : BlackArgs)
    (gR : PyPath) (f : FileInput) (ctx : Nat) (p : PyPath) (c : String) :
    Effect.write p c ∉ (attemptFile env eI bArgs gR f ctx).1 := by
  rcases attemptFile_effects env eI bArgs gR f ctx with h | h <;> simp [h]

/-- The retry loop performs at most one formatter invocation per
remaining iteration. -/
lemma countBlackCalls_runFrom_le (env : Env) (eI pD : Bool) (bArgs : BlackArgs)
    (gR : PyPath) (f : FileInput) :
    ∀ gas ctx, countBlackCalls (runFrom env eI pD bArgs gR f gas ctx).1 ≤ gas := by
  intro gas
  induction gas with
  | zero => intro ctx; simp [runFrom, countBlackCalls]
  | succ g ih =>
      intro ctx
      have hA := countBlackCalls_attempt_le env eI bArgs gR f ctx
      unfold runFrom
      rcases h2 : (attemptFile env eI bArgs gR f ctx).2 with e | r
      · simp only [h2]
        exact le_trans hA (by omega)
      · rcases r with _ | ⟨rs, cl⟩ | _
        · simp only [h2]
          exact le_trans hA (by omega)
        · simp only [h2]
          split
          · rw [countBlackCalls_append]
            have hPrints : ∀ d : List String,
                countBlackCalls (if d.length > 2 then [Effect.printOut d] else []) = 0 := by
              intro d
              split <;> simp [countBlackCalls, Effect.isBlackCall]
            rw [hPrints]
            omega
          · rw [countBlackCalls_append]
            have : countBlackCalls [Effect.write f.srcRelative rs] = 0 := by
              simp [countBlackCalls, Effect.isBlackCall]
            omega
        · simp only [h2]
          split
          · exact le_trans hA (by omega)
          · rw [countBlackCalls_append]
            have := ih (ctx + 1)
            omega

/-- When every attempt of the retry loop is rejected with
`NotEquivalentError`, the loop started anywhere inside its range ends by
re-raising the error. -/
lemma runFrom_all_fail (env : Env) (eI pD : Bool) (bArgs : BlackArgs)
    (gR : PyPath) (f : FileInput)
    (hAll : ∀ ctx, (attemptFile env eI bArgs gR f ctx).2 = Except.ok AttemptResult.notEquiv) :
    ∀ gas ctx, ctx + gas = max_context_lines env eI bArgs f →
      (runFrom env eI pD bArgs gR f (gas + 1) ctx).2 = Except.error DarkerError.notEquivalent := by
  intro gas
  induction gas with
  | zero =>
      intro ctx hctx
      have heq : ctx = max_context_lines env eI bArgs f := by omega
      unfold runFrom
      simp [heq, hAll]
  | succ g ih =>
      intro ctx hctx
      unfold runFrom
      simp only [hAll ctx]
      have hne : ¬ ctx = max_context_lines env eI bArgs f := by omega
      simp only [hne, if_false]
      exact ih (ctx + 1) (by omega)

/-- In diff-printing mode the retry loop never produces a write
effect. -/
lemma write_not_mem_runFrom (env : Env) (eI : Bool) (bArgs : BlackArgs)
    (gR : PyPath) (f : FileInput) (p : PyPath) (c : String) :
    ∀ gas ctx, Effect.write p c ∉ (runFrom env eI true bArgs gR f gas ctx).1 := by
  intro gas
  induction gas with
  | zero => intro ctx; simp [runFrom]
  | succ g ih =>
      intro ctx
      have hA := write_not_mem_attemptFile env eI bArgs gR f ctx p c
      unfold runFrom
      rcases h2 : (attemptFile env eI bArgs gR f ctx).2 with e | r
      · simpa [h2] using hA
      · rcases r with _ | ⟨rs, cl⟩ | _
        · simpa [h2] using hA
        · simp only [h2, if_true]
          simp only [List.mem_append]
          rintro (h | h)
          · exact hA h
          · revert h
            split <;> simp
        · simp only [h2]
          split
          · simpa using hA
          · simp only [List.mem_append]
            rintro (h | h)
            · exact hA h
            · exact ih (ctx + 1) h

/-- In diff-printing mode the whole file loop never produces a write
effect. -/
lemma write_not_mem_processAll (env : Env) (eI : Bool) (bArgs : BlackArgs)
    (gR : PyPath) (p : PyPath) (c : String) :
    ∀ files : List FileInput,
      Effect.write p c ∉ (processAll env eI true bArgs gR files).1 := by
  intro files
  induction files with
  | nil => simp [processAll]
  | cons f rest ih =>
      have hf : Effect.write p c ∉ (processFile env eI true bArgs gR f).1 :=
        write_not_mem_runFrom env eI bArgs gR f p c _ 0
      unfold processAll
      rcases h2 : (processFile env eI true bArgs gR f).2 with e | u
      · simpa [h2] using hf
      · simp only [h2, List.mem_append]
        rintro (h | h)
        · exact hf h
        · exact ih h

/-! ## Claim theorems -/

/-- Claim C8: `WorkTreeFileAccess.write` and `IndexFileAccess.write`
are extensionally equal; for every relative path and content both store
the content at the working-tree location `git_root / relative_path`,
and the staging index is never updated by either write. -/
theorem worktree_index_write_equal (gitRoot : PyPath) (st : GitState)
    (rel : PyPath) (content : String) :
    workTreeFileAccessWrite gitRoot st rel content
      = indexFileAccessWrite gitRoot st rel content ∧
    getKey (workTreeFileAccessWrite gitRoot st rel content).workTree
      (get_absolute_path gitRoot rel) = some content ∧
    (indexFileAccessWrite gitRoot st rel content).index = st.index ∧
    (workTreeFileAccessWrite gitRoot st rel content).index = st.index := by
  refine ⟨rfl, ?_, rfl, rfl⟩
  simp [workTreeFileAccessWrite, setKey, getKey, List.find?]

/-- Claim C10: a path is in the result of `git_diff_name_only` exactly
when git reported it modified, it exists on disk, and its suffix is
`".py"`; for a nonempty relative path the suffix test on
`cwd / path` agrees with the path's own suffix. -/
theorem git_diff_name_only_filters (world : GitWorld) (cwd p : PyPath) :
    (p ∈ git_diff_name_only world cwd ↔
      p ∈ world.diffOutput ∧ world.fileExists (cwd ++ p) = true ∧
        pathSuffix (cwd ++ p) = ".py") ∧
    (p ≠ [] → pathSuffix (cwd ++ p) = pathSuffix p) := by
  constructor
  · simp [git_diff_name_only, should_reformat_file, List.mem_filter,
      Bool.and_eq_true, decide_eq_true_eq, and_assoc]
  · intro hp
    have hname : pathlibName (cwd ++ p) = pathlibName p := by
      simp [pathlibName, List.getLastD_eq_getLast?,
        List.getLast?_append_of_ne_nil _ hp]
    simp [pathSuffix, hname]

/-- Claim C10 witness: in a concrete world reporting one existing
`.py` file, that file is in the result, and the suffix agreement holds
for its nonempty relative path. -/
theorem git_diff_name_only_filters_witness :
    (["c", "d.py"] ∈ git_diff_name_only filterWorld ["root"]) ∧
    (["c", "d.py"] : PyPath) ≠ [] ∧
    pathSuffix (["root"] ++ ["c", "d.py"]) = pathSuffix ["c", "d.py"] := by
  refine ⟨?_, by decide,
    (git_diff_name_only_filters filterWorld ["root"] ["c", "d.py"]).2 (by decide)⟩
  exact (git_diff_name_only_filters filterWorld ["root"] ["c", "d.py"]).1.mpr
    ⟨by decide, by decide, by decide⟩

/-- Claim C2: at a revision where the path does not exist, `git show`
exits nonzero and `git_get_content` lets `CalledProcessError` from
`check_output` propagate instead of returning an empty list of lines;
`git_get_index_content` behaves the same for a path missing from the
index, while a path present at `HEAD` is read normally. -/
theorem git_get_content_raises_on_missing_path :
    git_get_content headOnlyRepo ["my.txt"] [] "HEAD~2"
      = Except.error SubprocessError.calledProcessError ∧
    git_get_index_content headOnlyRepo ["my.txt"] []
      = Except.error SubprocessError.calledProcessError ∧
    git_get_unmodified_content headOnlyRepo ["my.txt"] []
      = Except.ok ["modified content"] :=
  ⟨rfl, rfl, rfl⟩

/-- Claim C6: for one file, every value the loop body recomputes except
the edited line-number set is identical across any two attempts: the
HEAD-vs-edited opcodes, the formatter output, the edited-vs-reformatted
opcodes and the chunk list agree for any two context values, and only
`edited_linenums` consumes the context parameter. -/
theorem retry_invariant_intermediates (env : Env) (eI : Bool)
    (bArgs : BlackArgs) (gR : PyPath) (f : FileInput) (c₁ c₂ : Nat) :
    edited_opcodes_at env eI bArgs f c₁ = edited_opcodes_at env eI bArgs f c₂ ∧
    formatted_at env eI bArgs gR f c₁ = formatted_at env eI bArgs gR f c₂ ∧
    opcodes_at env eI bArgs gR f c₁ = opcodes_at env eI bArgs gR f c₂ ∧
    black_chunks_at env eI bArgs gR f c₁ = black_chunks_at env eI bArgs gR f c₂ ∧
    edited_linenums_at env eI bArgs f c₁
      = env.opcodes_to_edit_linenums (edited_opcodes_at env eI bArgs f c₁) c₁ :=
  ⟨rfl, rfl, rfl, rfl, rfl⟩

/-- Claim C1 counterexample: `max_context_lines = len(edited_content)`
is evaluated on the file's text, a `str`, so for the two-line document
`"a\nb\n"` the bound is its character count 4, not its line count 2;
with a verifier that rejects every attempt, the machine performs five
attempts (contexts 0..4) before re-raising, not the three the claimed
line-count bound would give. -/
theorem max_context_lines_is_char_count :
    max_context_lines alwaysFailEnv false {} twoLineFile = 4 ∧
    (splitlines (editedSrcOf alwaysFailEnv false {} twoLineFile)).length = 2 ∧
    (processFile alwaysFailEnv false false {} ["root"] twoLineFile).2
      = Except.error DarkerError.notEquivalent ∧
    countBlackCalls (processFile alwaysFailEnv false false {} ["root"] twoLineFile).1 = 5 :=
  ⟨rfl, rfl, rfl, rfl⟩

/-- Claim C1 (amended): for every file the retry state machine starts
at `context_lines = 0`; `max_context_lines` is the length of the edited
document's text (its character count); and on each caught
`NotEquivalentError` the loop either re-raises it when `context_lines`
equals `max_context_lines` or moves to the attempt with
`context_lines + 1`. -/
theorem retry_state_machine_char_count (env : Env) (eI pD : Bool)
    (bArgs : BlackArgs) (gR : PyPath) (f : FileInput) (gas ctx : Nat)
    (h : (attemptFile env eI bArgs gR f ctx).2 = Except.ok AttemptResult.notEquiv) :
    processFile env eI pD bArgs gR f
      = runFrom env eI pD bArgs gR f (max_context_lines env eI bArgs f + 1) 0 ∧
    max_context_lines env eI bArgs f = (editedSrcOf env eI bArgs f).length ∧
    (runFrom env eI pD bArgs gR f (gas + 1) ctx).2 =
      (if ctx = max_context_lines env eI bArgs f
       then Except.error DarkerError.notEquivalent
       else (runFrom env eI pD bArgs gR f gas (ctx + 1)).2) := by
  refine ⟨rfl, rfl, ?_⟩
  conv_lhs => unfold runFrom
  simp only [h]
  split <;> rfl

/-- Claim C1 witness: the amended transition rule applied to the
always-failing collaborators at `context_lines = 1` of the four-character
document, where the attempt is rejected and the loop retries at 2. -/
theorem retry_state_machine_char_count_witness :
    (attemptFile alwaysFailEnv false {} ["root"] twoLineFile 1).2
      = Except.ok AttemptResult.notEquiv ∧
    (runFrom alwaysFailEnv false false {} ["root"] twoLineFile 2 1).2 =
      (if 1 = max_context_lines alwaysFailEnv false {} twoLineFile
       then Except.error DarkerError.notEquivalent
       else (runFrom alwaysFailEnv false false {} ["root"] twoLineFile 1 2).2) :=
  ⟨rfl, (retry_state_machine_char_count alwaysFailEnv false false {} ["root"]
    twoLineFile 1 1 rfl).2.2⟩

/-- Claim C3: when isort is enabled, the isort pass left the file's
text unchanged, and the extracted edited line-number set is empty, the
first attempt breaks out before formatting: no formatter invocation, no
write, no effect at all, and the file loop moves on to the remaining
files. -/
theorem isort_noop_skips_formatting (env : Env) (pD : Bool) (bArgs : BlackArgs)
    (gR : PyPath) (f : FileInput) (rest : List FileInput)
    (hNoLines : edited_linenums_at env true bArgs f 0 = [])
    (hNoChange : editedSrcOf env true bArgs f = f.gitModified) :
    processFile env true pD bArgs gR f = ([], Except.ok ()) ∧
    processAll env true pD bArgs gR (f :: rest)
      = processAll env true pD bArgs gR rest := by
  have hCond : earlyExitCond env true bArgs f 0 = true := by
    simp [earlyExitCond, hNoLines, hNoChange]
  have hAtt : attemptFile env true bArgs gR f 0
      = ([], Except.ok AttemptResult.skipped) := by
    unfold attemptFile
    simp [hCond]
  have hFile : processFile env true pD bArgs gR f = ([], Except.ok ()) := by
    unfold processFile
    conv_lhs => unfold runFrom
    simp [hAtt]
  refine ⟨hFile, ?_⟩
  conv_lhs => unfold processAll
  simp [hFile]

/-- Claim C3 witness: with collaborators whose isort is the identity
and whose diff marks no line edited, the file is skipped without any
effect. -/
theorem isort_noop_skips_formatting_witness :
    edited_linenums_at noopIsortEnv true {} twoLineFile 0 = [] ∧
    editedSrcOf noopIsortEnv true {} twoLineFile = twoLineFile.gitModified ∧
    processFile noopIsortEnv true false {} ["root"] twoLineFile = ([], Except.ok ()) :=
  ⟨rfl, rfl,
   (isort_noop_skips_formatting noopIsortEnv false {} ["root"] twoLineFile [] rfl rfl).1⟩

/-- Claim C4: an attempt that ends in any uncaught exception stops the
retry loop at once with exactly that attempt's effects, and a formatter
failure in `run_black` is such an exception: when the early exit is not
taken and `run_black` fails, the attempt returns that error uncaught.
Only a caught `NotEquivalentError` (`AttemptResult.notEquiv`) can lead
to another attempt. -/
theorem only_not_equivalent_retries (env : Env) (eI pD : Bool)
    (bArgs : BlackArgs) (gR : PyPath) (f : FileInput) (gas ctx : Nat) :
    (∀ e, (attemptFile env eI bArgs gR f ctx).2 = Except.error e →
      runFrom env eI pD bArgs gR f (gas + 1) ctx
        = ((attemptFile env eI bArgs gR f ctx).1, Except.error e)) ∧
    (∀ e, earlyExitCond env eI bArgs f ctx = false →
      formatted_at env eI bArgs gR f ctx = Except.error e →
      (attemptFile env eI bArgs gR f ctx).2 = Except.error e) := by
  constructor
  · intro e h
    conv_lhs => unfold runFrom
    simp [h]
  · intro e hCond hBlack
    unfold attemptFile
    simp [hCond, hBlack]

/-- Claim C4 witness: with a formatter that rejects its input, the
first attempt fails fatally and the loop performs no further
attempt. -/
theorem only_not_equivalent_retries_witness :
    earlyExitCond blackFailEnv false {} twoLineFile 0 = false ∧
    formatted_at blackFailEnv false {} ["root"] twoLineFile 0
      = Except.error (DarkerError.formatterError "syntax error") ∧
    (attemptFile blackFailEnv false {} ["root"] twoLineFile 0).2
      = Except.error (DarkerError.formatterError "syntax error") ∧
    runFrom blackFailEnv false false {} ["root"] twoLineFile 1 0
      = ((attemptFile blackFailEnv false {} ["root"] twoLineFile 0).1,
         Except.error (DarkerError.formatterError "syntax error")) := by
  have h := only_not_equivalent_retries blackFailEnv false false {} ["root"] twoLineFile 0 0
  have h2 := h.2 (DarkerError.formatterError "syntax error") rfl rfl
  exact ⟨rfl, rfl, h2, h.1 (DarkerError.formatterError "syntax error") h2⟩

/-- Claim C5: the per-file retry loop always terminates; the number of
formatter invocations, one per attempt, is at most
`max_context_lines + 1` (the contexts 0 to the document text's length),
and when every attempt is rejected with `NotEquivalentError` the loop
ends by re-raising the error. -/
theorem retry_loop_terminates (env : Env) (eI pD : Bool) (bArgs : BlackArgs)
    (gR : PyPath) (f : FileInput) :
    countBlackCalls (processFile env eI pD bArgs gR f).1
      ≤ max_context_lines env eI bArgs f + 1 ∧
    ((∀ ctx, (attemptFile env eI bArgs gR f ctx).2
        = Except.ok AttemptResult.notEquiv) →
      (processFile env eI pD bArgs gR f).2
        = Except.error DarkerError.notEquivalent) := by
  constructor
  · exact countBlackCalls_runFrom_le env eI pD bArgs gR f _ 0
  · intro hAll
    exact runFrom_all_fail env eI pD bArgs gR f hAll _ 0 (by omega)

/-- Claim C5 witness: with the always-failing verifier the
four-character document's loop stays within its attempt bound and ends
by re-raising `NotEquivalentError`. -/
theorem retry_loop_terminates_witness :
    countBlackCalls (processFile alwaysFailEnv false false {} ["root"] twoLineFile).1
      ≤ max_context_lines alwaysFailEnv false {} twoLineFile + 1 ∧
    (processFile alwaysFailEnv false false {} ["root"] twoLineFile).2
      = Except.error DarkerError.notEquivalent :=
  ⟨(retry_loop_terminates alwaysFailEnv false false {} ["root"] twoLineFile).1,
   (retry_loop_terminates alwaysFailEnv false false {} ["root"] twoLineFile).2
     (fun _ => rfl)⟩

/-- Claim C7: an uncaught error while processing one file aborts the
whole `format_edited_parts` call: the result carries only that file's
effects and the error, so no later file is processed or written. -/
theorem fatal_error_aborts_run (env : Env) (eI pD : Bool) (bArgs : BlackArgs)
    (gR : PyPath) (f : FileInput) (rest : List FileInput) (e : DarkerError)
    (h : (processFile env eI pD bArgs gR f).2 = Except.error e) :
    processAll env eI pD bArgs gR (f :: rest)
      = ((processFile env eI pD bArgs gR f).1, Except.error e) := by
  conv_lhs => unfold processAll
  simp [h]

/-- Claim C7 witness: the always-failing verifier makes the first file
fatal, and a second file in the list contributes nothing to the
result. -/
theorem fatal_error_aborts_run_witness :
    (processFile alwaysFailEnv false false {} ["root"] twoLineFile).2
      = Except.error DarkerError.notEquivalent ∧
    processAll alwaysFailEnv false false {} ["root"] [twoLineFile, twoLineFile]
      = ((processFile alwaysFailEnv false false {} ["root"] twoLineFile).1,
         Except.error DarkerError.notEquivalent) :=
  ⟨rfl, fatal_error_aborts_run alwaysFailEnv false false {} ["root"] twoLineFile
    [twoLineFile] DarkerError.notEquivalent rfl⟩

/-- Claim C9: with `print_diff` true, `format_edited_parts` never calls
`git_file_access.write`: no write effect occurs in the trace of any
run, for any collaborators and any files. -/
theorem print_diff_never_writes (env : Env) (eI : Bool) (bArgs : BlackArgs)
    (gR : PyPath) (files : List FileInput) (p : PyPath) (c : String) :
    Effect.write p c ∉ (format_edited_parts env eI bArgs true gR files).1 :=
  write_not_mem_processAll env eI bArgs gR p c files
